import Mathlib

set_option autoImplicit false

namespace GmcSso

/-! Shallow embedding of the GMC-sso token subsystem: the JWT helper
(app/common/utils/token_helper.py), the token validator
(app/common/utils/token_validator.py), the Redis session storage
(app/modules/auth/services/session.py), the token service
(app/modules/auth/services/token.py) and the auth use case
(app/modules/auth/usecases/auth.py), together with the route-level wiring
(app/modules/auth/routers/auth.py and the get_current_user dependency). -/

/-- Kind of a JWT: the value of its "token" claim, written by
TokenHelper.create_token as "access" or "refresh". -/
inductive TokenKind where
  | access
  | refresh
  deriving DecidableEq, Repr

/-- Decoded claim set of a JWT as produced by TokenHelper.create_token: the
payload fields sub and permissions, plus the exp, jti and token-kind claims
that create_token adds. Times are epoch seconds. -/
structure Claims where
  sub : String
  permissions : List String
  jti : String
  exp : Nat
  kind : TokenKind
  deriving DecidableEq, Repr

/-- A JWT on the wire: either a well-signed claims set, tagged with the secret
that signed it, or a malformed string (anything jose cannot verify). The empty
bearer string is represented as malformed "". -/
inductive Jwt where
  | signed (claims : Claims) (secret : String)
  | malformed (raw : String)
  deriving DecidableEq, Repr

/-- Error conditions raised by the subsystem. jwtError is a raw jose JWTError
escaping a function; the others are BackendException codes from
app/common/consts/error_codes.py: TokenError.BAD_REFRESH_TOKEN (100, 401),
TokenError.BAD_ACCESS_TOKEN (101, 401), TokenError.INVALID_TOKEN (102, 402)
and UserError.INCORRECT_CREDENTIALS (201, 401). -/
inductive Err where
  | jwtError
  | badRefreshToken
  | badAccessToken
  | invalidToken
  | incorrectCredentials
  deriving DecidableEq, Repr

/-- Modelled from the spec: the settings module app/config/settings.py is not
among the sources; per the spec the token lifetimes are configuration
constants (access short, refresh long) and tokens are signed with a shared
secret. -/
structure Settings where
  TOKEN_SECRET_KEY : String
  ACCESS_TOKEN_EXPIRE_SECONDS : Nat
  REFRESH_TOKEN_EXPIRE_SECONDS : Nat
  deriving DecidableEq, Repr

/-- A record in the Redis store: the stored string value together with the
time-to-live attached to it by the setex call that wrote it. -/
structure StoreRec where
  value : String
  ttl : Nat
  deriving DecidableEq, Repr

/-- The Redis key-value store, modelled as an association list from keys to
records; the first binding of a key is the visible one. -/
abbrev Store := List (String × StoreRec)

/-- Redis SETEX: bind the key to the value with a fresh time-to-live,
overwriting any existing binding of that key in place. -/
def redisSetex (st : Store) (k : String) (ttl : Nat) (v : String) : Store :=
  match st with
  | [] => [(k, ⟨v, ttl⟩)]
  | (k₁, r) :: rest =>
    if k₁ = k then (k, ⟨v, ttl⟩) :: rest else (k₁, r) :: redisSetex rest k ttl v

/-- Redis GET: the value currently bound to the key, if any. -/
def redisGet (st : Store) (k : String) : Option String :=
  match st with
  | [] => none
  | (k₁, r) :: rest => if k₁ = k then some r.value else redisGet rest k

/-- Redis GET of the whole record, exposing the TTL the last write attached. -/
def redisGetRec (st : Store) (k : String) : Option StoreRec :=
  match st with
  | [] => none
  | (k₁, r) :: rest => if k₁ = k then some r else redisGetRec rest k

/-- Redis KEYS with the glob pattern p ++ "*": every stored key that starts
with p. SessionStorageService.invalidate_all_sessions calls this with
p = user_id ++ ":". -/
def redisKeys (st : Store) (p : String) : List String :=
  (st.map Prod.fst).filter (fun k => p.data.isPrefixOf k.data)

/-- jose jwt.decode: verifies the signature against the given secret and the
exp claim against the current time, returning the claims; none models the
JWTError jose raises on a malformed token, a bad signature or an expired exp. -/
def jwtDecode (tok : Jwt) (secret : String) (now : Nat) : Option Claims :=
  match tok with
  | .signed c s => if s = secret ∧ now < c.exp then some c else none
  | .malformed _ => none

/-- Externally visible output of validation, schema TokenData
(sid = subject, jti, permissions); the schemas module is not among the
sources, the shape is the one the spec gives. -/
structure TokenData where
  sid : String
  jti : String
  permissions : List String
  deriving DecidableEq, Repr

/-- Output of issuance, schema LoginToken: the access/refresh pair. -/
structure LoginToken where
  access_token : Jwt
  refresh_token : Jwt
  deriving DecidableEq, Repr

/-- TokenHelper.create_token: copy the payload (sub, permissions), add
exp = now + expires_delta, the jti, and the token-kind claim ("refresh" when
the refresh flag is set, else "access"), then sign with the configured
secret. -/
def create_token (s : Settings) (sub : String) (permissions : List String)
    (expires_delta : Nat) (jti : String) (refresh : Bool) (now : Nat) : Jwt :=
  .signed ⟨sub, permissions, jti, now + expires_delta,
    if refresh then TokenKind.refresh else TokenKind.access⟩ s.TOKEN_SECRET_KEY

/-- TokenHelper.token_payload: jose decode (JWTError becomes BackendException
INVALID_TOKEN), then the kind check against the refresh flag, then the
non-empty-subject check, then the Redis revocation check: the record under
key sub ++ ":" ++ jti must hold exactly the string "False", any other value
or an absent record rejects with BAD_REFRESH_TOKEN or BAD_ACCESS_TOKEN
according to the flag. -/
def token_payload (s : Settings) (st : Store) (tok : Jwt) (refresh : Bool)
    (now : Nat) : Except Err TokenData :=
  match jwtDecode tok s.TOKEN_SECRET_KEY now with
  | none => .error .invalidToken
  | some p =>
    if refresh = true ∧ p.kind ≠ TokenKind.refresh then .error .badRefreshToken
    else if refresh = false ∧ p.kind ≠ TokenKind.access then .error .badAccessToken
    else if p.sub = "" then .error .incorrectCredentials
    else if redisGet st (p.sub ++ ":" ++ p.jti) ≠ some "False" then
      if refresh then .error .badRefreshToken else .error .badAccessToken
    else .ok ⟨p.sub, p.jti, p.permissions⟩

/-- TokenHelper.create_token_pair: draw two fresh uuid4 jtis (passed here as
the parameters access_jti and refresh_jti, since uuid generation is an
external random source), create the access token (access lifetime) and the
refresh token (refresh lifetime) over the same payload, then setex the keys
sub ++ ":" ++ access_jti and sub ++ ":" ++ refresh_jti to "False" with the
respective lifetimes as TTL. Returns the pair and the updated store. -/
def create_token_pair (s : Settings) (st : Store) (sub : String)
    (permissions : List String) (access_jti refresh_jti : String) (now : Nat) :
    LoginToken × Store :=
  let access_token :=
    create_token s sub permissions s.ACCESS_TOKEN_EXPIRE_SECONDS access_jti false now
  let refresh_token :=
    create_token s sub permissions s.REFRESH_TOKEN_EXPIRE_SECONDS refresh_jti true now
  let st₁ := redisSetex st (sub ++ ":" ++ access_jti)
    s.ACCESS_TOKEN_EXPIRE_SECONDS "False"
  let st₂ := redisSetex st₁ (sub ++ ":" ++ refresh_jti)
    s.REFRESH_TOKEN_EXPIRE_SECONDS "False"
  (⟨access_token, refresh_token⟩, st₂)

/-- TokenValidator.validate_access_token: empty-token guard, then
token_payload with refresh = false; both JWTError and BackendException are
caught and collapse to INCORRECT_CREDENTIALS. -/
def validate_access_token (s : Settings) (st : Store) (tok : Jwt) (now : Nat) :
    Except Err TokenData :=
  if tok = Jwt.malformed "" then .error .incorrectCredentials
  else
    match token_payload s st tok false now with
    | .ok d => .ok d
    | .error _ => .error .incorrectCredentials

/-- TokenValidator.validate_refresh_token: empty-token guard, then
token_payload with refresh = true. The except clause catches only the raw
jose JWTError, which token_payload never lets escape (it converts it to
BackendException INVALID_TOKEN), so every token_payload rejection propagates
to the caller unchanged. -/
def validate_refresh_token (s : Settings) (st : Store) (tok : Jwt) (now : Nat) :
    Except Err TokenData :=
  if tok = Jwt.malformed "" then .error .incorrectCredentials
  else token_payload s st tok true now

/-- SessionStorageService.invalidate_session: setex the session key to the
string "True" with the given expiry. -/
def invalidate_session (st : Store) (session_id : String) (expire_seconds : Nat) :
    Store :=
  redisSetex st session_id expire_seconds "True"

/-- SessionStorageService.invalidate_all_sessions: KEYS with pattern
user_id ++ ":*", then invalidate_session on each returned key with the given
expiry. -/
def invalidate_all_sessions (st : Store) (user_id : String)
    (expire_seconds : Nat) : Store :=
  (redisKeys st (user_id ++ ":")).foldl
    (fun acc k => invalidate_session acc k expire_seconds) st

/-- TokenService.validate_token: a bare jose decode against the configured
secret; no kind check, no subject check, no revocation-store lookup. A decode
failure is the raw JWTError, uncaught here. -/
def validate_token (s : Settings) (tok : Jwt) (now : Nat) : Except Err Claims :=
  match jwtDecode tok s.TOKEN_SECRET_KEY now with
  | some p => .ok p
  | none => .error .jwtError

/-- AuthUseCase.update_access_token (the whole refresh endpoint: the route
adds no validation dependency): TokenService.validate_token (bare decode) on
the presented token, invalidate_session on key sub ++ ":" ++ jti of the
decoded payload with the refresh lifetime as TTL, then create_token_pair over
the decoded sub and permissions. -/
def update_access_token (s : Settings) (st : Store) (tok : Jwt)
    (access_jti refresh_jti : String) (now : Nat) :
    Except Err (LoginToken × Store) :=
  match validate_token s tok now with
  | .error e => .error e
  | .ok p =>
    let st₁ := invalidate_session st (p.sub ++ ":" ++ p.jti)
      s.REFRESH_TOKEN_EXPIRE_SECONDS
    .ok (create_token_pair s st₁ p.sub p.permissions access_jti refresh_jti now)

/-- AuthUseCase.delete_tokens, given the sid string of the already-resolved
user: with the everywhere flag, invalidate_all_sessions for that sid with the
access lifetime; otherwise TokenService.validate_token (bare decode) on the
presented token and invalidate_session on key sid ++ ":" ++ jti with the
access lifetime. Returns the message "Successfully logged out.". -/
def delete_tokens (s : Settings) (st : Store) (tok : Jwt) (user_sid : String)
    (everywhere : Bool) (now : Nat) : Except Err (String × Store) :=
  if everywhere then
    .ok ("Successfully logged out.",
      invalidate_all_sessions st user_sid s.ACCESS_TOKEN_EXPIRE_SECONDS)
  else
    match validate_token s tok now with
    | .error e => .error e
    | .ok p =>
      .ok ("Successfully logged out.",
        invalidate_session st (user_sid ++ ":" ++ p.jti)
          s.ACCESS_TOKEN_EXPIRE_SECONDS)

/-- get_current_user dependency: validate_access_token on the bearer token,
then the user-repository lookup by the validated sid; a missing user raises
INCORRECT_CREDENTIALS. The users parameter lists the sid strings present in
the user table (as str of the stored sid, which is the sub written at
issuance). -/
def get_current_user (s : Settings) (st : Store) (users : List String)
    (tok : Jwt) (now : Nat) : Except Err TokenData :=
  match validate_access_token s st tok now with
  | .error e => .error e
  | .ok d => if users.contains d.sid then .ok d else .error .incorrectCredentials

/-- The logout endpoint (routers/auth.py logout): the get_current_user
dependency validates the bearer token and resolves the user, then
AuthUseCase.delete_tokens runs with that user and the same token. -/
def logout_route (s : Settings) (st : Store) (users : List String) (tok : Jwt)
    (everywhere : Bool) (now : Nat) : Except Err (String × Store) :=
  match get_current_user s st users tok now with
  | .error e => .error e
  | .ok d => delete_tokens s st tok d.sid everywhere now

/-! Basic lemmas about the Redis store model. -/

theorem redisGet_setex_self (st : Store) (k : String) (ttl : Nat) (v : String) :
    redisGet (redisSetex st k ttl v) k = some v := by
  induction st with
  | nil => simp [redisSetex, redisGet]
  | cons e rest ih =>
    obtain ⟨k₁, r⟩ := e
    by_cases h : k₁ = k <;> simp [redisSetex, redisGet, h, ih]

theorem redisGet_setex_ne (st : Store) (k₁ k : String) (ttl : Nat) (v : String)
    (h : k₁ ≠ k) : redisGet (redisSetex st k₁ ttl v) k = redisGet st k := by
  induction st with
  | nil => simp [redisSetex, redisGet, h]
  | cons e rest ih =>
    obtain ⟨k₂, r⟩ := e
    by_cases h₂ : k₂ = k₁ <;> by_cases h₃ : k₂ = k <;>
      simp_all [redisSetex, redisGet]

theorem redisGetRec_setex_self (st : Store) (k : String) (ttl : Nat) (v : String) :
    redisGetRec (redisSetex st k ttl v) k = some ⟨v, ttl⟩ := by
  induction st with
  | nil => simp [redisSetex, redisGetRec]
  | cons e rest ih =>
    obtain ⟨k₁, r⟩ := e
    by_cases h : k₁ = k <;> simp [redisSetex, redisGetRec, h, ih]

theorem redisGetRec_setex_ne (st : Store) (k₁ k : String) (ttl : Nat) (v : String)
    (h : k₁ ≠ k) : redisGetRec (redisSetex st k₁ ttl v) k = redisGetRec st k := by
  induction st with
  | nil => simp [redisSetex, redisGetRec, h]
  | cons e rest ih =>
    obtain ⟨k₂, r⟩ := e
    by_cases h₂ : k₂ = k₁ <;> by_cases h₃ : k₂ = k <;>
      simp_all [redisSetex, redisGetRec]

theorem redisGet_isSome_iff_mem (st : Store) (k : String) :
    (redisGet st k).isSome = true ↔ k ∈ st.map Prod.fst := by
  induction st with
  | nil => simp [redisGet]
  | cons e rest ih =>
    obtain ⟨k₁, r⟩ := e
    by_cases h : k₁ = k <;> simp [redisGet, h, ih]
    exact fun he => absurd he.symm h

theorem mem_redisKeys (st : Store) (p k : String) :
    k ∈ redisKeys st p ↔ k ∈ st.map Prod.fst ∧ p.data.isPrefixOf k.data = true := by
  simp [redisKeys, List.mem_filter]

theorem redisGet_fold_invalidate (ks : List String) (st : Store) (k : String)
    (ttl : Nat) :
    redisGet (ks.foldl (fun acc x => invalidate_session acc x ttl) st) k
      = if k ∈ ks then some "True" else redisGet st k := by
  induction ks generalizing st with
  | nil => simp
  | cons x ks ih =>
    simp only [List.foldl_cons]
    rw [ih]
    by_cases hx : k ∈ ks
    · simp [hx]
    · by_cases hk : x = k
      · subst hk
        simp [hx, invalidate_session, redisGet_setex_self]
      · rw [invalidate_session, redisGet_setex_ne _ _ _ _ _ hk]
        simp [hx, Ne.symm hk]

theorem token_payload_congr (s : Settings) (st₁ st₂ : Store) (tok : Jwt)
    (r : Bool) (now : Nat)
    (h : ∀ c, jwtDecode tok s.TOKEN_SECRET_KEY now = some c →
      redisGet st₁ (c.sub ++ ":" ++ c.jti) = redisGet st₂ (c.sub ++ ":" ++ c.jti)) :
    token_payload s st₁ tok r now = token_payload s st₂ tok r now := by
  unfold token_payload
  cases hd : jwtDecode tok s.TOKEN_SECRET_KEY now with
  | none => rfl
  | some c => simp only [h c hd]

theorem token_key_inj (sub j₁ j₂ : String)
    (h : sub ++ ":" ++ j₁ = sub ++ ":" ++ j₂) : j₁ = j₂ := by
  have h₂ : (sub ++ ":").data ++ j₁.data = (sub ++ ":").data ++ j₂.data := by
    have h₃ := congrArg String.data h
    rwa [String.data_append (sub ++ ":") j₁, String.data_append (sub ++ ":") j₂]
      at h₃
  exact String.ext (List.append_cancel_left h₂)

theorem noColon_key_not_prefixed {a b d : List Char} (ha : ':' ∉ a)
    (hb : ':' ∉ b) (hab : a ≠ b) : ¬ (a ++ [':']) <+: (b ++ ':' :: d) := by
  induction a generalizing b with
  | nil =>
    cases b with
    | nil => exact absurd rfl hab
    | cons y b₁ =>
      intro hp
      rw [List.nil_append, List.cons_append] at hp
      rcases List.cons_prefix_cons.mp hp with ⟨hy, -⟩
      exact hb (by rw [← hy]; exact List.mem_cons_self _ _)
  | cons x a₁ ih =>
    cases b with
    | nil =>
      intro hp
      rw [List.cons_append, List.nil_append] at hp
      rcases List.cons_prefix_cons.mp hp with ⟨hx, -⟩
      exact ha (by rw [hx]; exact List.mem_cons_self _ _)
    | cons y b₁ =>
      intro hp
      rw [List.cons_append, List.cons_append] at hp
      rcases List.cons_prefix_cons.mp hp with ⟨hxy, hp₁⟩
      have ha₁ : ':' ∉ a₁ := fun hm => ha (List.mem_cons_of_mem _ hm)
      have hb₁ : ':' ∉ b₁ := fun hm => hb (List.mem_cons_of_mem _ hm)
      have hab₁ : a₁ ≠ b₁ := fun he => hab (by rw [hxy, he])
      exact ih ha₁ hb₁ hab₁ hp₁

/-- Concrete configuration used to instantiate theorems on closed inputs. -/
def sampleSettings : Settings := ⟨"secret", 1800, 604800⟩

/-- C2, counterexample: the claim quantifies over every subject string, but at
the empty subject the issued access token fails validation: token_payload
rejects with INCORRECT_CREDENTIALS (the non-empty-subject check), so
issue-then-validate does not return the supplied subject. -/
theorem C2_counterexample_empty_subject :
    token_payload sampleSettings
      (create_token_pair sampleSettings [] "" ["777"] "ja" "jr" 0).2
      (create_token_pair sampleSettings [] "" ["777"] "ja" "jr" 0).1.access_token
      false 0
      = .error .incorrectCredentials := by rfl

/-- C2, amended: for every non-empty subject and permission list (and a
positive configured access lifetime), issuing a pair and validating the
returned access token with expected kind access succeeds and returns the
same subject and permissions. -/
theorem C2_issue_then_validate_roundtrip (s : Settings) (st : Store)
    (sub : String) (perms : List String) (aJti rJti : String) (now : Nat)
    (hsub : sub ≠ "") (httl : 0 < s.ACCESS_TOKEN_EXPIRE_SECONDS) :
    token_payload s (create_token_pair s st sub perms aJti rJti now).2
      (create_token_pair s st sub perms aJti rJti now).1.access_token false now
      = .ok ⟨sub, aJti, perms⟩ := by
  have hexp : now < now + s.ACCESS_TOKEN_EXPIRE_SECONDS :=
    Nat.lt_add_of_pos_right httl
  simp only [create_token_pair, create_token]
  have hget : redisGet
      (redisSetex
        (redisSetex st (sub ++ ":" ++ aJti) s.ACCESS_TOKEN_EXPIRE_SECONDS
          "False")
        (sub ++ ":" ++ rJti) s.REFRESH_TOKEN_EXPIRE_SECONDS "False")
      (sub ++ ":" ++ aJti) = some "False" := by
    by_cases h : sub ++ ":" ++ rJti = sub ++ ":" ++ aJti
    · rw [← h, redisGet_setex_self]
    · rw [redisGet_setex_ne _ _ _ _ _ h, redisGet_setex_self]
  simp [token_payload, jwtDecode, hexp, hsub, hget]

/-- C2 witness: concrete round trip for subject "u1" and permissions ["777"]. -/
theorem C2_issue_then_validate_roundtrip_witness :
    ("u1" : String) ≠ "" ∧ 0 < sampleSettings.ACCESS_TOKEN_EXPIRE_SECONDS ∧
    token_payload sampleSettings
      (create_token_pair sampleSettings [] "u1" ["777"] "ja" "jr" 5).2
      (create_token_pair sampleSettings [] "u1" ["777"] "ja" "jr" 5).1.access_token
      false 5
      = .ok ⟨"u1", "ja", ["777"]⟩ :=
  ⟨by decide, by decide,
    C2_issue_then_validate_roundtrip sampleSettings [] "u1" ["777"] "ja" "jr" 5
      (by decide) (by decide)⟩

/-- C3: for a well-signed unexpired token whose kind matches the expected kind
and whose subject is non-empty, the revocation check passes iff the record
under sub:jti holds exactly "False"; after invalidate_session on that key the
token is rejected (with the kind-specific error) although jose decode still
succeeds, and an absent record is rejected the same way (fail-closed). -/
theorem C3_revocation_false_marker (s : Settings) (st : Store) (c : Claims)
    (r : Bool) (now ttl : Nat) (hexp : now < c.exp) (hsub : c.sub ≠ "")
    (hkind : c.kind = (if r then TokenKind.refresh else TokenKind.access)) :
    ((token_payload s st (.signed c s.TOKEN_SECRET_KEY) r now).isOk = true
        ↔ redisGet st (c.sub ++ ":" ++ c.jti) = some "False")
    ∧ token_payload s (invalidate_session st (c.sub ++ ":" ++ c.jti) ttl)
        (.signed c s.TOKEN_SECRET_KEY) r now
        = .error (if r then Err.badRefreshToken else Err.badAccessToken)
    ∧ jwtDecode (.signed c s.TOKEN_SECRET_KEY) s.TOKEN_SECRET_KEY now = some c
    ∧ (redisGet st (c.sub ++ ":" ++ c.jti) = none →
      token_payload s st (.signed c s.TOKEN_SECRET_KEY) r now
        = .error (if r then Err.badRefreshToken else Err.badAccessToken)) := by
  refine ⟨?_, ?_, by simp [jwtDecode, hexp], ?_⟩
  · by_cases hget : redisGet st (c.sub ++ ":" ++ c.jti) = some "False" <;>
      cases r <;> simp_all [token_payload, jwtDecode, Except.isOk, Except.toBool]
  · have hval : redisGet (invalidate_session st (c.sub ++ ":" ++ c.jti) ttl)
        (c.sub ++ ":" ++ c.jti) = some "True" :=
      redisGet_setex_self st _ ttl "True"
    cases r <;> simp_all [token_payload, jwtDecode]
  · intro hget
    cases r <;> simp_all [token_payload, jwtDecode]

/-- C3 witness: concrete instance with an access token for subject "u". -/
theorem C3_revocation_false_marker_witness :
    (0 : Nat) < 100 ∧ ("u" : String) ≠ "" ∧
    (Claims.mk "u" ["777"] "j" 100 TokenKind.access).kind
      = (if false then TokenKind.refresh else TokenKind.access) ∧
    (((token_payload sampleSettings [("u:j", ⟨"False", 1800⟩)]
        (.signed ⟨"u", ["777"], "j", 100, TokenKind.access⟩
          sampleSettings.TOKEN_SECRET_KEY) false 0).isOk = true
      ↔ redisGet [("u:j", ⟨"False", 1800⟩)] ("u" ++ ":" ++ "j") = some "False")
    ∧ token_payload sampleSettings
        (invalidate_session [("u:j", ⟨"False", 1800⟩)] ("u" ++ ":" ++ "j") 1800)
        (.signed ⟨"u", ["777"], "j", 100, TokenKind.access⟩
          sampleSettings.TOKEN_SECRET_KEY) false 0
        = .error (if false then Err.badRefreshToken else Err.badAccessToken)
    ∧ jwtDecode
        (.signed ⟨"u", ["777"], "j", 100, TokenKind.access⟩
          sampleSettings.TOKEN_SECRET_KEY)
        sampleSettings.TOKEN_SECRET_KEY 0
        = some ⟨"u", ["777"], "j", 100, TokenKind.access⟩
    ∧ (redisGet [("u:j", ⟨"False", 1800⟩)] ("u" ++ ":" ++ "j") = none →
      token_payload sampleSettings [("u:j", ⟨"False", 1800⟩)]
        (.signed ⟨"u", ["777"], "j", 100, TokenKind.access⟩
          sampleSettings.TOKEN_SECRET_KEY) false 0
        = .error (if false then Err.badRefreshToken else Err.badAccessToken))) :=
  ⟨by decide, by decide, by decide,
    C3_revocation_false_marker sampleSettings [("u:j", ⟨"False", 1800⟩)]
      ⟨"u", ["777"], "j", 100, TokenKind.access⟩ false 0 1800
      (by decide) (by decide) (by decide)⟩

/-- C4: the access-token entry point collapses every internal rejection to
INCORRECT_CREDENTIALS, but the refresh-token entry point does not: its except
clause catches only the raw jose error, which token_payload never raises, so
a malformed token surfaces as INVALID_TOKEN (402) and a wrong-kind token as
BAD_REFRESH_TOKEN (401) — two distinct externally visible errors, neither of
which is INCORRECT_CREDENTIALS, contradicting the claim (and the function's
own docstring) for the refresh entry point. -/
theorem C4_refresh_validator_leaks_distinct_errors :
    validate_refresh_token sampleSettings [] (.malformed "garbage") 0
      = .error .invalidToken
    ∧ validate_refresh_token sampleSettings []
        (.signed ⟨"u", ["777"], "ja", 100, TokenKind.access⟩ "secret") 0
      = .error .badRefreshToken
    ∧ validate_access_token sampleSettings [] (.malformed "garbage") 0
      = .error .incorrectCredentials
    ∧ validate_access_token sampleSettings []
        (.signed ⟨"u", ["777"], "jr", 100, TokenKind.refresh⟩ "secret") 0
      = .error .incorrectCredentials
    ∧ Err.invalidToken ≠ Err.incorrectCredentials
    ∧ Err.badRefreshToken ≠ Err.incorrectCredentials
    ∧ Err.invalidToken ≠ Err.badRefreshToken :=
  ⟨rfl, rfl, rfl, rfl, by decide, by decide, by decide⟩

/-- C5: a decoded access-kind token validated with expected kind refresh is
rejected with BAD_REFRESH_TOKEN, and a decoded refresh-kind token validated
with expected kind access is rejected with BAD_ACCESS_TOKEN; the store is
universally quantified, so the kind decision is taken before and
independently of the revocation-store lookup. -/
theorem C5_kind_mismatch_rejects (s : Settings) (st : Store) (c : Claims)
    (now : Nat) (hexp : now < c.exp) :
    (c.kind = TokenKind.access →
      token_payload s st (.signed c s.TOKEN_SECRET_KEY) true now
        = .error .badRefreshToken)
    ∧ (c.kind = TokenKind.refresh →
      token_payload s st (.signed c s.TOKEN_SECRET_KEY) false now
        = .error .badAccessToken) := by
  constructor <;> intro hk <;> simp [token_payload, jwtDecode, hexp, hk]

/-- C5 witness: concrete kind-mismatch rejections over an arbitrary record. -/
theorem C5_kind_mismatch_rejects_witness :
    (0 : Nat) < 100 ∧
    (((Claims.mk "u" ["777"] "j" 100 TokenKind.access).kind = TokenKind.access →
      token_payload sampleSettings [("u:j", ⟨"False", 1800⟩)]
        (.signed ⟨"u", ["777"], "j", 100, TokenKind.access⟩
          sampleSettings.TOKEN_SECRET_KEY) true 0
        = .error .badRefreshToken)
    ∧ ((Claims.mk "u" ["777"] "j" 100 TokenKind.access).kind = TokenKind.refresh →
      token_payload sampleSettings [("u:j", ⟨"False", 1800⟩)]
        (.signed ⟨"u", ["777"], "j", 100, TokenKind.access⟩
          sampleSettings.TOKEN_SECRET_KEY) false 0
        = .error .badAccessToken)) :=
  ⟨by decide,
    C5_kind_mismatch_rejects sampleSettings [("u:j", ⟨"False", 1800⟩)]
      ⟨"u", ["777"], "j", 100, TokenKind.access⟩ 0 (by decide)⟩

/-- C1: the refresh endpoint does not validate the presented token as a
refresh-kind token. AuthUseCase.update_access_token calls
TokenService.validate_token — a bare jose decode — so a revoked refresh token
(store record "True") is accepted and a fresh pair issued, an access-kind
token is likewise accepted, and a malformed token surfaces as the raw jose
error rather than INCORRECT_CREDENTIALS; TokenValidator.validate_refresh_token,
which implements the checks the claim describes, is never called on this path
and would have rejected the revoked token. -/
theorem C1_refresh_skips_validation :
    (update_access_token sampleSettings [("u" ++ ":" ++ "j", ⟨"True", 604800⟩)]
        (.signed ⟨"u", ["777"], "j", 100, TokenKind.refresh⟩ "secret")
        "ja" "jr" 0).isOk = true
    ∧ (update_access_token sampleSettings []
        (.signed ⟨"u", ["777"], "j", 100, TokenKind.access⟩ "secret")
        "ja" "jr" 0).isOk = true
    ∧ update_access_token sampleSettings [] (.malformed "garbage") "ja" "jr" 0
      = .error .jwtError
    ∧ validate_refresh_token sampleSettings
        [("u" ++ ":" ++ "j", ⟨"True", 604800⟩)]
        (.signed ⟨"u", ["777"], "j", 100, TokenKind.refresh⟩ "secret") 0
      = .error .badRefreshToken :=
  ⟨rfl, rfl, rfl, rfl⟩

/-- Validation can only succeed when the record under the token's key holds
exactly "False": any other store content makes token_payload reject, whatever
the other checks would say. -/
theorem token_payload_not_ok_of_get_ne (s : Settings) (st : Store) (c : Claims)
    (r : Bool) (now : Nat)
    (hget : redisGet st (c.sub ++ ":" ++ c.jti) ≠ some "False") :
    (token_payload s st (.signed c s.TOKEN_SECRET_KEY) r now).isOk = false := by
  unfold token_payload jwtDecode
  by_cases hexp : now < c.exp
  · simp only [hexp, and_true]
    split_ifs <;> simp_all [Except.isOk, Except.toBool] <;> split_ifs <;> rfl
  · simp [hexp, Except.isOk, Except.toBool]

/-- C6: after invalidate_all_sessions for a subject, every record that existed
under a key subject:jti is overwritten to "True", so every token of that
subject whose record existed at scan time fails validation; any key that does
not start with subject ++ ":" keeps its record, and for a different colon-free
subject both the records and the whole validation outcome of its tokens are
unchanged — invalidation hits exactly the keys matching the pattern
subject:*. -/
theorem C6_invalidate_all_frame (s : Settings) (st : Store) (sub : String)
    (ttl : Nat) :
    (∀ jti, (redisGet st (sub ++ ":" ++ jti)).isSome = true →
      redisGet (invalidate_all_sessions st sub ttl) (sub ++ ":" ++ jti)
        = some "True")
    ∧ (∀ (c : Claims) (r : Bool) (now : Nat), c.sub = sub →
      (redisGet st (c.sub ++ ":" ++ c.jti)).isSome = true →
      (token_payload s (invalidate_all_sessions st sub ttl)
        (.signed c s.TOKEN_SECRET_KEY) r now).isOk = false)
    ∧ (∀ k, ¬ (sub ++ ":").data.isPrefixOf k.data = true →
      redisGet (invalidate_all_sessions st sub ttl) k = redisGet st k)
    ∧ (∀ sub₂, ':' ∉ sub.data → ':' ∉ sub₂.data → sub₂ ≠ sub →
      ∀ jti, redisGet (invalidate_all_sessions st sub ttl) (sub₂ ++ ":" ++ jti)
        = redisGet st (sub₂ ++ ":" ++ jti))
    ∧ (∀ (c : Claims) (r : Bool) (now : Nat),
      ':' ∉ sub.data → ':' ∉ c.sub.data → c.sub ≠ sub →
      token_payload s (invalidate_all_sessions st sub ttl)
          (.signed c s.TOKEN_SECRET_KEY) r now
        = token_payload s st (.signed c s.TOKEN_SECRET_KEY) r now) := by
  have hmain : ∀ k, redisGet (invalidate_all_sessions st sub ttl) k
      = if k ∈ redisKeys st (sub ++ ":") then some "True" else redisGet st k := by
    intro k
    unfold invalidate_all_sessions
    exact redisGet_fold_invalidate _ st k ttl
  have hdata : ∀ t : String, (sub ++ ":" ++ t).data
      = (sub ++ ":").data ++ t.data := fun t => String.data_append (sub ++ ":") t
  have hinkeys : ∀ jti, (redisGet st (sub ++ ":" ++ jti)).isSome = true →
      (sub ++ ":" ++ jti) ∈ redisKeys st (sub ++ ":") := by
    intro jti hg
    refine (mem_redisKeys st _ _).mpr
      ⟨(redisGet_isSome_iff_mem st _).mp hg, ?_⟩
    rw [hdata]
    exact List.isPrefixOf_iff_prefix.mpr (List.prefix_append _ _)
  have hmarked : ∀ jti, (redisGet st (sub ++ ":" ++ jti)).isSome = true →
      redisGet (invalidate_all_sessions st sub ttl) (sub ++ ":" ++ jti)
        = some "True" := by
    intro jti hg
    rw [hmain, if_pos (hinkeys jti hg)]
  have hnopref : ∀ sub₂ : String, ':' ∉ sub.data → ':' ∉ sub₂.data →
      sub₂ ≠ sub → ∀ jti : String,
      ¬ (sub ++ ":").data.isPrefixOf (sub₂ ++ ":" ++ jti).data = true := by
    intro sub₂ hs hs₂ hne jti hpref
    have hp := List.isPrefixOf_iff_prefix.mp hpref
    have hshape : (sub₂ ++ ":" ++ jti).data = sub₂.data ++ ':' :: jti.data := by
      rw [String.data_append (sub₂ ++ ":") jti, String.data_append sub₂ ":",
        List.append_assoc]
      rfl
    have hcolon : (sub ++ ":").data = sub.data ++ [':'] := by
      rw [String.data_append sub ":"]
    rw [hshape, hcolon] at hp
    exact noColon_key_not_prefixed hs hs₂ (fun he => hne (String.ext he).symm) hp
  have hframe : ∀ k, ¬ (sub ++ ":").data.isPrefixOf k.data = true →
      redisGet (invalidate_all_sessions st sub ttl) k = redisGet st k := by
    intro k hk
    rw [hmain, if_neg (fun hmem => hk ((mem_redisKeys st _ _).mp hmem).2)]
  have hother : ∀ sub₂, ':' ∉ sub.data → ':' ∉ sub₂.data → sub₂ ≠ sub →
      ∀ jti, redisGet (invalidate_all_sessions st sub ttl) (sub₂ ++ ":" ++ jti)
        = redisGet st (sub₂ ++ ":" ++ jti) := by
    intro sub₂ hs hs₂ hne jti
    exact hframe _ (hnopref sub₂ hs hs₂ hne jti)
  refine ⟨hmarked, ?_, hframe, hother, ?_⟩
  · intro c r now hc hg
    subst hc
    refine token_payload_not_ok_of_get_ne s _ c r now ?_
    rw [hmarked c.jti hg]
    decide
  · intro c r now hs hs₂ hne
    refine token_payload_congr s _ st _ r now ?_
    intro c₂ hd
    have hc₂ : c₂ = c := by
      by_cases hexp : now < c.exp <;> simp_all [jwtDecode]
    subst hc₂
    exact hother c₂.sub hs hs₂ hne c₂.jti

/-- C6 witness: two subjects u and v; invalidate_all for u marks u's record
"True" and leaves v's record and token validity untouched. -/
theorem C6_invalidate_all_frame_witness :
    ((redisGet [("u" ++ ":" ++ "a", ⟨"False", 9⟩), ("v" ++ ":" ++ "b", ⟨"False", 9⟩)]
        ("u" ++ ":" ++ "a")).isSome = true)
    ∧ redisGet (invalidate_all_sessions
        [("u" ++ ":" ++ "a", ⟨"False", 9⟩), ("v" ++ ":" ++ "b", ⟨"False", 9⟩)] "u" 7)
        ("u" ++ ":" ++ "a") = some "True"
    ∧ redisGet (invalidate_all_sessions
        [("u" ++ ":" ++ "a", ⟨"False", 9⟩), ("v" ++ ":" ++ "b", ⟨"False", 9⟩)] "u" 7)
        ("v" ++ ":" ++ "b")
      = redisGet [("u" ++ ":" ++ "a", ⟨"False", 9⟩), ("v" ++ ":" ++ "b", ⟨"False", 9⟩)]
        ("v" ++ ":" ++ "b") :=
  ⟨by decide,
    (C6_invalidate_all_frame sampleSettings
      [("u" ++ ":" ++ "a", ⟨"False", 9⟩), ("v" ++ ":" ++ "b", ⟨"False", 9⟩)]
      "u" 7).1 "a" (by decide),
    (C6_invalidate_all_frame sampleSettings
      [("u" ++ ":" ++ "a", ⟨"False", 9⟩), ("v" ++ ":" ++ "b", ⟨"False", 9⟩)]
      "u" 7).2.2.2.1 "v" (by decide) (by decide) (by decide) "b"⟩

/-- C7, counterexample: the refresh call also accepts tokens the claim's
consequent fails on. First, it accepts a signed refresh token with an empty
subject, yet the access token of the returned pair does not validate
(mapping the accepted result to the new access token's validation outcome
yields ok false). Second, when a freshly drawn jti collides with the old
token's jti, the call is accepted but the old refresh token still validates
afterwards (the registration overwrote the invalidation marker back to
"False"), so the old record is not left invalid. -/
theorem C7_counterexample_accepted_but_consequent_fails :
    (update_access_token sampleSettings []
        (.signed ⟨"", ["777"], "j", 100, TokenKind.refresh⟩ "secret")
        "ja" "jr" 0).map
      (fun r => (token_payload sampleSettings r.2 r.1.access_token false 0).isOk)
      = .ok false
    ∧ (update_access_token sampleSettings
        [("u" ++ ":" ++ "ja", ⟨"False", 604800⟩)]
        (.signed ⟨"u", ["777"], "ja", 100, TokenKind.refresh⟩ "secret")
        "ja" "jr" 0).map
      (fun r => (token_payload sampleSettings r.2
        (.signed ⟨"u", ["777"], "ja", 100, TokenKind.refresh⟩ "secret")
        true 0).isOk)
      = .ok true :=
  ⟨rfl, rfl⟩

/-- C7, amended: for every refresh call that accepts its input token, where
the token carries a non-empty subject and the two freshly drawn jtis differ
from the old token's jti (and the configured lifetimes are positive), the old
record at subject:jti is overwritten to "True" — so a subsequent validate of
the old refresh token rejects — and the returned pair's two tokens both
validate, carrying the old token's subject and permissions. -/
theorem C7_refresh_rotates (s : Settings) (st : Store) (c : Claims)
    (aJti rJti : String) (now : Nat)
    (hexp : now < c.exp) (hkind : c.kind = TokenKind.refresh) (hsub : c.sub ≠ "")
    (ha : aJti ≠ c.jti) (hr : rJti ≠ c.jti)
    (haccess : 0 < s.ACCESS_TOKEN_EXPIRE_SECONDS)
    (hrefresh : 0 < s.REFRESH_TOKEN_EXPIRE_SECONDS) :
    ∃ pair st₂,
      update_access_token s st (.signed c s.TOKEN_SECRET_KEY) aJti rJti now
        = .ok (pair, st₂)
      ∧ redisGet st₂ (c.sub ++ ":" ++ c.jti) = some "True"
      ∧ token_payload s st₂ (.signed c s.TOKEN_SECRET_KEY) true now
        = .error .badRefreshToken
      ∧ token_payload s st₂ pair.access_token false now
        = .ok ⟨c.sub, aJti, c.permissions⟩
      ∧ token_payload s st₂ pair.refresh_token true now
        = .ok ⟨c.sub, rJti, c.permissions⟩ := by
  have hdec : jwtDecode (.signed c s.TOKEN_SECRET_KEY) s.TOKEN_SECRET_KEY now
      = some c := by simp [jwtDecode, hexp]
  have hka : c.sub ++ ":" ++ aJti ≠ c.sub ++ ":" ++ c.jti :=
    fun h => ha (token_key_inj _ _ _ h)
  have hkr : c.sub ++ ":" ++ rJti ≠ c.sub ++ ":" ++ c.jti :=
    fun h => hr (token_key_inj _ _ _ h)
  refine ⟨⟨create_token s c.sub c.permissions s.ACCESS_TOKEN_EXPIRE_SECONDS
      aJti false now,
    create_token s c.sub c.permissions s.REFRESH_TOKEN_EXPIRE_SECONDS
      rJti true now⟩,
    redisSetex
      (redisSetex
        (invalidate_session st (c.sub ++ ":" ++ c.jti)
          s.REFRESH_TOKEN_EXPIRE_SECONDS)
        (c.sub ++ ":" ++ aJti) s.ACCESS_TOKEN_EXPIRE_SECONDS "False")
      (c.sub ++ ":" ++ rJti) s.REFRESH_TOKEN_EXPIRE_SECONDS "False",
    ?_, ?_, ?_, ?_, ?_⟩
  · simp [update_access_token, validate_token, hdec, create_token_pair]
  · rw [redisGet_setex_ne _ _ _ _ _ hkr, redisGet_setex_ne _ _ _ _ _ hka]
    exact redisGet_setex_self st _ _ "True"
  · have hold : redisGet
        (redisSetex
          (redisSetex
            (invalidate_session st (c.sub ++ ":" ++ c.jti)
              s.REFRESH_TOKEN_EXPIRE_SECONDS)
            (c.sub ++ ":" ++ aJti) s.ACCESS_TOKEN_EXPIRE_SECONDS "False")
          (c.sub ++ ":" ++ rJti) s.REFRESH_TOKEN_EXPIRE_SECONDS "False")
        (c.sub ++ ":" ++ c.jti) ≠ some "False" := by
      rw [redisGet_setex_ne _ _ _ _ _ hkr, redisGet_setex_ne _ _ _ _ _ hka]
      simp only [invalidate_session, redisGet_setex_self st _ _ "True"]
      decide
    simp [token_payload, hdec, hkind, hsub, hold]
  · have hgeta : redisGet
        (redisSetex
          (redisSetex
            (invalidate_session st (c.sub ++ ":" ++ c.jti)
              s.REFRESH_TOKEN_EXPIRE_SECONDS)
            (c.sub ++ ":" ++ aJti) s.ACCESS_TOKEN_EXPIRE_SECONDS "False")
          (c.sub ++ ":" ++ rJti) s.REFRESH_TOKEN_EXPIRE_SECONDS "False")
        (c.sub ++ ":" ++ aJti) = some "False" := by
      by_cases h : c.sub ++ ":" ++ rJti = c.sub ++ ":" ++ aJti
      · rw [h]
        exact redisGet_setex_self _ _ _ "False"
      · rw [redisGet_setex_ne _ _ _ _ _ h]
        exact redisGet_setex_self _ _ _ "False"
    have hexpA : now < now + s.ACCESS_TOKEN_EXPIRE_SECONDS :=
      Nat.lt_add_of_pos_right haccess
    simp [token_payload, jwtDecode, create_token, hexpA, hsub, hgeta]
  · have hgetr : redisGet
        (redisSetex
          (redisSetex
            (invalidate_session st (c.sub ++ ":" ++ c.jti)
              s.REFRESH_TOKEN_EXPIRE_SECONDS)
            (c.sub ++ ":" ++ aJti) s.ACCESS_TOKEN_EXPIRE_SECONDS "False")
          (c.sub ++ ":" ++ rJti) s.REFRESH_TOKEN_EXPIRE_SECONDS "False")
        (c.sub ++ ":" ++ rJti) = some "False" :=
      redisGet_setex_self _ _ _ "False"
    have hexpR : now < now + s.REFRESH_TOKEN_EXPIRE_SECONDS :=
      Nat.lt_add_of_pos_right hrefresh
    simp [token_payload, jwtDecode, create_token, hexpR, hsub, hgetr]

/-- C7 witness: concrete rotation for subject "u1". -/
theorem C7_refresh_rotates_witness :
    (0 : Nat) < 100 ∧ ("u1" : String) ≠ "" ∧ ("ja" : String) ≠ "j"
    ∧ ("jr" : String) ≠ "j" ∧
    (∃ pair st₂,
      update_access_token sampleSettings []
        (.signed ⟨"u1", ["777"], "j", 100, TokenKind.refresh⟩
          sampleSettings.TOKEN_SECRET_KEY) "ja" "jr" 0
        = .ok (pair, st₂)
      ∧ redisGet st₂ ("u1" ++ ":" ++ "j") = some "True"
      ∧ token_payload sampleSettings st₂
          (.signed ⟨"u1", ["777"], "j", 100, TokenKind.refresh⟩
            sampleSettings.TOKEN_SECRET_KEY) true 0
          = .error .badRefreshToken
      ∧ token_payload sampleSettings st₂ pair.access_token false 0
          = .ok ⟨"u1", "ja", ["777"]⟩
      ∧ token_payload sampleSettings st₂ pair.refresh_token true 0
          = .ok ⟨"u1", "jr", ["777"]⟩) :=
  ⟨by decide, by decide, by decide, by decide,
    C7_refresh_rotates sampleSettings []
      ⟨"u1", ["777"], "j", 100, TokenKind.refresh⟩ "ja" "jr" 0
      (by decide) rfl (by decide) (by decide) (by decide) (by decide)
      (by decide)⟩

/-- TokenValidator.validate_access_token either succeeds or yields exactly
INCORRECT_CREDENTIALS: every internal failure collapses to that one error. -/
theorem validate_access_token_ok_or_incorrect (s : Settings) (st : Store)
    (tok : Jwt) (now : Nat) :
    (validate_access_token s st tok now).isOk = true
    ∨ validate_access_token s st tok now = .error .incorrectCredentials := by
  unfold validate_access_token
  by_cases hg : tok = Jwt.malformed ""
  · simp [hg]
  · cases hm : token_payload s st tok false now <;>
      simp [hg, hm, Except.isOk, Except.toBool]

/-- C8: logout, as served by the route (get_current_user dependency plus
AuthUseCase.delete_tokens). With a valid access token: the everywhere flag
invalidates all of the subject's records; without it, exactly the record
subject:jti is overwritten (every other key unchanged) with the access
lifetime, after which the same access token no longer validates; both
complete with the success message; and any token the validator rejects makes
the route fail with INCORRECT_CREDENTIALS, for either flag value. -/
theorem C8_logout_route (s : Settings) (st : Store) (c : Claims)
    (users : List String) (now : Nat)
    (hexp : now < c.exp) (hkind : c.kind = TokenKind.access) (hsub : c.sub ≠ "")
    (huser : users.contains c.sub = true)
    (hget : redisGet st (c.sub ++ ":" ++ c.jti) = some "False") :
    logout_route s st users (.signed c s.TOKEN_SECRET_KEY) true now
      = .ok ("Successfully logged out.",
        invalidate_all_sessions st c.sub s.ACCESS_TOKEN_EXPIRE_SECONDS)
    ∧ logout_route s st users (.signed c s.TOKEN_SECRET_KEY) false now
      = .ok ("Successfully logged out.",
        invalidate_session st (c.sub ++ ":" ++ c.jti)
          s.ACCESS_TOKEN_EXPIRE_SECONDS)
    ∧ token_payload s
        (invalidate_session st (c.sub ++ ":" ++ c.jti)
          s.ACCESS_TOKEN_EXPIRE_SECONDS)
        (.signed c s.TOKEN_SECRET_KEY) false now
      = .error .badAccessToken
    ∧ (∀ k, k ≠ c.sub ++ ":" ++ c.jti →
        redisGet (invalidate_session st (c.sub ++ ":" ++ c.jti)
          s.ACCESS_TOKEN_EXPIRE_SECONDS) k = redisGet st k)
    ∧ (∀ tok₂, (validate_access_token s st tok₂ now).isOk = false →
        ∀ e : Bool, logout_route s st users tok₂ e now
          = .error .incorrectCredentials) := by
  have hdec : jwtDecode (.signed c s.TOKEN_SECRET_KEY) s.TOKEN_SECRET_KEY now
      = some c := by simp [jwtDecode, hexp]
  have hval : validate_access_token s st (.signed c s.TOKEN_SECRET_KEY) now
      = .ok ⟨c.sub, c.jti, c.permissions⟩ := by
    simp [validate_access_token, token_payload, hdec, hkind, hsub, hget]
  have hmem : c.sub ∈ users := by simpa using huser
  have hcur : get_current_user s st users (.signed c s.TOKEN_SECRET_KEY) now
      = .ok ⟨c.sub, c.jti, c.permissions⟩ := by
    simp [get_current_user, hval, hmem]
  refine ⟨?_, ?_, ?_, ?_, ?_⟩
  · simp [logout_route, hcur, delete_tokens]
  · simp [logout_route, hcur, delete_tokens, validate_token, hdec]
  · have hne : redisGet (invalidate_session st (c.sub ++ ":" ++ c.jti)
        s.ACCESS_TOKEN_EXPIRE_SECONDS) (c.sub ++ ":" ++ c.jti)
        ≠ some "False" := by
      simp only [invalidate_session, redisGet_setex_self]
      decide
    simp [token_payload, hdec, hkind, hsub, hne]
  · intro k hk
    exact redisGet_setex_ne st _ k _ "True" (Ne.symm hk)
  · intro tok₂ hfail e
    rcases validate_access_token_ok_or_incorrect s st tok₂ now with h | h
    · rw [hfail] at h
      exact Bool.noConfusion h
    · simp [logout_route, get_current_user, h]

/-- C8 witness: concrete logout flows for subject "u1". -/
theorem C8_logout_route_witness :
    (0 : Nat) < 100 ∧
    (Claims.mk "u1" ["777"] "j" 100 TokenKind.access).kind = TokenKind.access ∧
    ("u1" : String) ≠ "" ∧ (["u1"].contains "u1") = true ∧
    redisGet [("u1" ++ ":" ++ "j", ⟨"False", 1800⟩)] ("u1" ++ ":" ++ "j")
      = some "False" ∧
    (logout_route sampleSettings [("u1" ++ ":" ++ "j", ⟨"False", 1800⟩)] ["u1"]
        (.signed ⟨"u1", ["777"], "j", 100, TokenKind.access⟩
          sampleSettings.TOKEN_SECRET_KEY) true 0
      = .ok ("Successfully logged out.",
        invalidate_all_sessions [("u1" ++ ":" ++ "j", ⟨"False", 1800⟩)] "u1"
          sampleSettings.ACCESS_TOKEN_EXPIRE_SECONDS)
    ∧ logout_route sampleSettings [("u1" ++ ":" ++ "j", ⟨"False", 1800⟩)] ["u1"]
        (.signed ⟨"u1", ["777"], "j", 100, TokenKind.access⟩
          sampleSettings.TOKEN_SECRET_KEY) false 0
      = .ok ("Successfully logged out.",
        invalidate_session [("u1" ++ ":" ++ "j", ⟨"False", 1800⟩)]
          ("u1" ++ ":" ++ "j") sampleSettings.ACCESS_TOKEN_EXPIRE_SECONDS)
    ∧ token_payload sampleSettings
        (invalidate_session [("u1" ++ ":" ++ "j", ⟨"False", 1800⟩)]
          ("u1" ++ ":" ++ "j") sampleSettings.ACCESS_TOKEN_EXPIRE_SECONDS)
        (.signed ⟨"u1", ["777"], "j", 100, TokenKind.access⟩
          sampleSettings.TOKEN_SECRET_KEY) false 0
      = .error .badAccessToken
    ∧ (∀ k, k ≠ "u1" ++ ":" ++ "j" →
        redisGet (invalidate_session [("u1" ++ ":" ++ "j", ⟨"False", 1800⟩)]
          ("u1" ++ ":" ++ "j") sampleSettings.ACCESS_TOKEN_EXPIRE_SECONDS) k
        = redisGet [("u1" ++ ":" ++ "j", ⟨"False", 1800⟩)] k)
    ∧ (∀ tok₂, (validate_access_token sampleSettings
          [("u1" ++ ":" ++ "j", ⟨"False", 1800⟩)] tok₂ 0).isOk = false →
        ∀ e : Bool, logout_route sampleSettings
          [("u1" ++ ":" ++ "j", ⟨"False", 1800⟩)] ["u1"] tok₂ e 0
          = .error .incorrectCredentials)) :=
  ⟨by decide, rfl, by decide, by decide, by decide,
    C8_logout_route sampleSettings [("u1" ++ ":" ++ "j", ⟨"False", 1800⟩)]
      ⟨"u1", ["777"], "j", 100, TokenKind.access⟩ ["u1"] 0
      (by decide) rfl (by decide) (by decide) (by decide)⟩

/-- C9: with the two freshly drawn jtis distinct (uuid4 draws), the issued
pair is registered under two distinct store keys; non-everywhere logout with
the access token rewrites only the access token's key and leaves the paired
refresh token's record bound to "False", so the refresh token still validates
afterwards. -/
theorem C9_logout_leaves_refresh_valid (s : Settings) (st : Store)
    (sub : String) (perms : List String) (aJti rJti : String)
    (users : List String) (now : Nat)
    (hsub : sub ≠ "") (hne : aJti ≠ rJti)
    (haccess : 0 < s.ACCESS_TOKEN_EXPIRE_SECONDS)
    (hrefresh : 0 < s.REFRESH_TOKEN_EXPIRE_SECONDS)
    (huser : users.contains sub = true) :
    sub ++ ":" ++ aJti ≠ sub ++ ":" ++ rJti
    ∧ logout_route s (create_token_pair s st sub perms aJti rJti now).2 users
        (create_token_pair s st sub perms aJti rJti now).1.access_token false now
      = .ok ("Successfully logged out.",
          invalidate_session (create_token_pair s st sub perms aJti rJti now).2
            (sub ++ ":" ++ aJti) s.ACCESS_TOKEN_EXPIRE_SECONDS)
    ∧ redisGet
        (invalidate_session (create_token_pair s st sub perms aJti rJti now).2
          (sub ++ ":" ++ aJti) s.ACCESS_TOKEN_EXPIRE_SECONDS)
        (sub ++ ":" ++ rJti)
      = redisGet (create_token_pair s st sub perms aJti rJti now).2
          (sub ++ ":" ++ rJti)
    ∧ redisGet (create_token_pair s st sub perms aJti rJti now).2
        (sub ++ ":" ++ rJti) = some "False"
    ∧ token_payload s
        (invalidate_session (create_token_pair s st sub perms aJti rJti now).2
          (sub ++ ":" ++ aJti) s.ACCESS_TOKEN_EXPIRE_SECONDS)
        (create_token_pair s st sub perms aJti rJti now).1.refresh_token true now
      = .ok ⟨sub, rJti, perms⟩ := by
  have hkey : sub ++ ":" ++ aJti ≠ sub ++ ":" ++ rJti :=
    fun h => hne (token_key_inj _ _ _ h)
  have hmem : sub ∈ users := by simpa using huser
  have hexpA : now < now + s.ACCESS_TOKEN_EXPIRE_SECONDS :=
    Nat.lt_add_of_pos_right haccess
  have hexpR : now < now + s.REFRESH_TOKEN_EXPIRE_SECONDS :=
    Nat.lt_add_of_pos_right hrefresh
  simp only [create_token_pair, create_token]
  have hgetA : redisGet
      (redisSetex
        (redisSetex st (sub ++ ":" ++ aJti) s.ACCESS_TOKEN_EXPIRE_SECONDS
          "False")
        (sub ++ ":" ++ rJti) s.REFRESH_TOKEN_EXPIRE_SECONDS "False")
      (sub ++ ":" ++ aJti) = some "False" := by
    rw [redisGet_setex_ne _ _ _ _ _ (Ne.symm hkey)]
    exact redisGet_setex_self _ _ _ "False"
  have hgetR : redisGet
      (redisSetex
        (redisSetex st (sub ++ ":" ++ aJti) s.ACCESS_TOKEN_EXPIRE_SECONDS
          "False")
        (sub ++ ":" ++ rJti) s.REFRESH_TOKEN_EXPIRE_SECONDS "False")
      (sub ++ ":" ++ rJti) = some "False" :=
    redisGet_setex_self _ _ _ "False"
  have hval : validate_access_token s
      (redisSetex
        (redisSetex st (sub ++ ":" ++ aJti) s.ACCESS_TOKEN_EXPIRE_SECONDS
          "False")
        (sub ++ ":" ++ rJti) s.REFRESH_TOKEN_EXPIRE_SECONDS "False")
      (.signed ⟨sub, perms, aJti, now + s.ACCESS_TOKEN_EXPIRE_SECONDS,
        TokenKind.access⟩ s.TOKEN_SECRET_KEY) now
      = .ok ⟨sub, aJti, perms⟩ := by
    simp [validate_access_token, token_payload, jwtDecode, hexpA, hsub, hgetA]
  have hframe : redisGet
      (invalidate_session
        (redisSetex
          (redisSetex st (sub ++ ":" ++ aJti) s.ACCESS_TOKEN_EXPIRE_SECONDS
            "False")
          (sub ++ ":" ++ rJti) s.REFRESH_TOKEN_EXPIRE_SECONDS "False")
        (sub ++ ":" ++ aJti) s.ACCESS_TOKEN_EXPIRE_SECONDS)
      (sub ++ ":" ++ rJti)
      = redisGet
        (redisSetex
          (redisSetex st (sub ++ ":" ++ aJti) s.ACCESS_TOKEN_EXPIRE_SECONDS
            "False")
          (sub ++ ":" ++ rJti) s.REFRESH_TOKEN_EXPIRE_SECONDS "False")
        (sub ++ ":" ++ rJti) :=
    redisGet_setex_ne _ _ _ _ "True" hkey
  refine ⟨hkey, ?_, hframe, hgetR, ?_⟩
  · simp [logout_route, get_current_user, hval, hmem, delete_tokens,
      validate_token, jwtDecode, hexpA]
  · have hgetR₂ : redisGet
        (invalidate_session
          (redisSetex
            (redisSetex st (sub ++ ":" ++ aJti) s.ACCESS_TOKEN_EXPIRE_SECONDS
              "False")
            (sub ++ ":" ++ rJti) s.REFRESH_TOKEN_EXPIRE_SECONDS "False")
          (sub ++ ":" ++ aJti) s.ACCESS_TOKEN_EXPIRE_SECONDS)
        (sub ++ ":" ++ rJti) = some "False" := hframe.trans hgetR
    simp [token_payload, jwtDecode, hexpR, hsub, hgetR₂]

/-- C9 witness: concrete pair for subject "u1" with jtis "ja" and "jr". -/
theorem C9_logout_leaves_refresh_valid_witness :
    ("u1" : String) ≠ "" ∧ ("ja" : String) ≠ "jr" ∧
    (0 : Nat) < sampleSettings.ACCESS_TOKEN_EXPIRE_SECONDS ∧
    (0 : Nat) < sampleSettings.REFRESH_TOKEN_EXPIRE_SECONDS ∧
    (["u1"].contains "u1") = true ∧
    ("u1" ++ ":" ++ "ja" ≠ "u1" ++ ":" ++ "jr"
    ∧ logout_route sampleSettings
        (create_token_pair sampleSettings [] "u1" ["777"] "ja" "jr" 0).2 ["u1"]
        (create_token_pair sampleSettings [] "u1" ["777"] "ja" "jr" 0).1.access_token
        false 0
      = .ok ("Successfully logged out.",
          invalidate_session
            (create_token_pair sampleSettings [] "u1" ["777"] "ja" "jr" 0).2
            ("u1" ++ ":" ++ "ja") sampleSettings.ACCESS_TOKEN_EXPIRE_SECONDS)
    ∧ redisGet
        (invalidate_session
          (create_token_pair sampleSettings [] "u1" ["777"] "ja" "jr" 0).2
          ("u1" ++ ":" ++ "ja") sampleSettings.ACCESS_TOKEN_EXPIRE_SECONDS)
        ("u1" ++ ":" ++ "jr")
      = redisGet (create_token_pair sampleSettings [] "u1" ["777"] "ja" "jr" 0).2
          ("u1" ++ ":" ++ "jr")
    ∧ redisGet (create_token_pair sampleSettings [] "u1" ["777"] "ja" "jr" 0).2
        ("u1" ++ ":" ++ "jr") = some "False"
    ∧ token_payload sampleSettings
        (invalidate_session
          (create_token_pair sampleSettings [] "u1" ["777"] "ja" "jr" 0).2
          ("u1" ++ ":" ++ "ja") sampleSettings.ACCESS_TOKEN_EXPIRE_SECONDS)
        (create_token_pair sampleSettings [] "u1" ["777"] "ja" "jr" 0).1.refresh_token
        true 0
      = .ok ⟨"u1", "jr", ["777"]⟩) :=
  ⟨by decide, by decide, by decide, by decide, by decide,
    C9_logout_leaves_refresh_valid sampleSettings [] "u1" ["777"] "ja" "jr"
      ["u1"] 0 (by decide) (by decide) (by decide) (by decide) (by decide)⟩

/-- Well-formed revocation store: every record sits under a key of the form
subject:unique-id (the key contains a colon) and carries one of the two
configured lifetimes as its TTL. -/
def StoreWF (s : Settings) (st : Store) : Prop :=
  ∀ k rec, redisGetRec st k = some rec →
    ':' ∈ k.data
    ∧ (rec.ttl = s.ACCESS_TOKEN_EXPIRE_SECONDS
      ∨ rec.ttl = s.REFRESH_TOKEN_EXPIRE_SECONDS)

theorem redisGetRec_isSome_iff_mem (st : Store) (k : String) :
    (redisGetRec st k).isSome = true ↔ k ∈ st.map Prod.fst := by
  induction st with
  | nil => simp [redisGetRec]
  | cons e rest ih =>
    obtain ⟨k₁, r⟩ := e
    by_cases h : k₁ = k <;> simp [redisGetRec, h, ih]
    exact fun he => absurd he.symm h

theorem colon_mem_key (sub jti : String) : ':' ∈ (sub ++ ":" ++ jti).data := by
  rw [String.data_append (sub ++ ":") jti, String.data_append sub ":"]
  exact List.mem_append_left _ (List.mem_append_right _ (by decide))

theorem StoreWF_setex (s : Settings) (st : Store) (k : String) (ttl : Nat)
    (v : String) (hst : StoreWF s st) (hk : ':' ∈ k.data)
    (httl : ttl = s.ACCESS_TOKEN_EXPIRE_SECONDS
      ∨ ttl = s.REFRESH_TOKEN_EXPIRE_SECONDS) :
    StoreWF s (redisSetex st k ttl v) := by
  intro k₂ rec hrec
  by_cases h : k = k₂
  · subst h
    rw [redisGetRec_setex_self] at hrec
    cases hrec
    exact ⟨hk, httl⟩
  · rw [redisGetRec_setex_ne _ _ _ _ _ h] at hrec
    exact hst k₂ rec hrec

theorem StoreWF_fold_invalidate (s : Settings) (ks : List String) (st : Store)
    (ttl : Nat) (hst : StoreWF s st) (hks : ∀ k ∈ ks, ':' ∈ k.data)
    (httl : ttl = s.ACCESS_TOKEN_EXPIRE_SECONDS
      ∨ ttl = s.REFRESH_TOKEN_EXPIRE_SECONDS) :
    StoreWF s (ks.foldl (fun acc x => invalidate_session acc x ttl) st) := by
  induction ks generalizing st with
  | nil => exact hst
  | cons x ks ih =>
    simp only [List.foldl_cons]
    refine ih (invalidate_session st x ttl) ?_ ?_
    · exact StoreWF_setex s st x ttl "True" hst
        (hks x (List.mem_cons_self _ _)) httl
    · exact fun k hk => hks k (List.mem_cons_of_mem _ hk)

theorem StoreWF_create_token_pair (s : Settings) (st : Store) (sub : String)
    (perms : List String) (aJti rJti : String) (now : Nat)
    (hst : StoreWF s st) :
    StoreWF s (create_token_pair s st sub perms aJti rJti now).2 :=
  StoreWF_setex s _ _ _ "False"
    (StoreWF_setex s st _ _ "False" hst (colon_mem_key sub aJti) (Or.inl rfl))
    (colon_mem_key sub rJti) (Or.inr rfl)

/-- C10: starting from a well-formed store, every store the subsystem's write
paths can produce — issuance, the refresh endpoint, logout in both modes — is
again well-formed: every record's key has the subject:unique-id form and its
TTL is one of the two configured lifetimes (each write being a setex with
exactly those TTLs); with positive configured lifetimes every record's TTL is
positive, so no record written by any operation persists indefinitely. -/
theorem C10_store_writes_wellformed (s : Settings) (st : Store)
    (hst : StoreWF s st) :
    (∀ sub perms aJti rJti now,
      StoreWF s (create_token_pair s st sub perms aJti rJti now).2)
    ∧ (∀ tok aJti rJti now pair st₂,
      update_access_token s st tok aJti rJti now = .ok (pair, st₂) →
      StoreWF s st₂)
    ∧ (∀ users tok e now msg st₂,
      logout_route s st users tok e now = .ok (msg, st₂) → StoreWF s st₂)
    ∧ (0 < s.ACCESS_TOKEN_EXPIRE_SECONDS → 0 < s.REFRESH_TOKEN_EXPIRE_SECONDS →
      ∀ k rec, redisGetRec st k = some rec → 0 < rec.ttl) := by
  have hcolonkeys : ∀ p : String, ∀ k ∈ redisKeys st p, ':' ∈ k.data := by
    intro p k hk
    have hmem := ((mem_redisKeys st p k).mp hk).1
    obtain ⟨rec, hrec⟩ :=
      Option.isSome_iff_exists.mp ((redisGetRec_isSome_iff_mem st k).mpr hmem)
    exact (hst k rec hrec).1
  refine ⟨?_, ?_, ?_, ?_⟩
  · intro sub perms aJti rJti now
    exact StoreWF_create_token_pair s st sub perms aJti rJti now hst
  · intro tok aJti rJti now pair st₂ h
    cases hv : validate_token s tok now with
    | error e => simp [update_access_token, hv] at h
    | ok p =>
      simp only [update_access_token, hv] at h
      have h₂ : st₂ = (create_token_pair s
          (invalidate_session st (p.sub ++ ":" ++ p.jti)
            s.REFRESH_TOKEN_EXPIRE_SECONDS)
          p.sub p.permissions aJti rJti now).2 := by
        cases h
        rfl
      rw [h₂]
      exact StoreWF_create_token_pair s _ p.sub p.permissions aJti rJti now
        (StoreWF_setex s st _ _ "True" hst (colon_mem_key p.sub p.jti)
          (Or.inr rfl))
  · intro users tok e now msg st₂ h
    cases hc : get_current_user s st users tok now with
    | error err => simp [logout_route, hc] at h
    | ok d =>
      simp only [logout_route, hc] at h
      cases e with
      | true =>
        simp only [delete_tokens, if_pos rfl] at h
        have h₂ : st₂ = invalidate_all_sessions st d.sid
            s.ACCESS_TOKEN_EXPIRE_SECONDS := by
          cases h
          rfl
        rw [h₂]
        unfold invalidate_all_sessions
        exact StoreWF_fold_invalidate s _ st _ hst (hcolonkeys _) (Or.inl rfl)
      | false =>
        cases hv : validate_token s tok now with
        | error err => simp [delete_tokens, hv] at h
        | ok p =>
          simp only [delete_tokens, Bool.false_eq_true, if_false, hv] at h
          have h₂ : st₂ = invalidate_session st (d.sid ++ ":" ++ p.jti)
              s.ACCESS_TOKEN_EXPIRE_SECONDS := by
            cases h
            rfl
          rw [h₂]
          exact StoreWF_setex s st _ _ "True" hst
            (colon_mem_key d.sid p.jti) (Or.inl rfl)
  · intro hA hR k rec hrec
    rcases (hst k rec hrec).2 with h | h <;> rw [h] <;> assumption

/-- C10 witness: the store produced by a concrete issuance over the empty
(vacuously well-formed) store is well-formed. -/
theorem C10_store_writes_wellformed_witness :
    StoreWF sampleSettings
      (create_token_pair sampleSettings [] "u1" ["777"] "ja" "jr" 0).2 :=
  (C10_store_writes_wellformed sampleSettings []
    (fun k rec h => by simp [redisGetRec] at h)).1 "u1" ["777"] "ja" "jr" 0

end GmcSso
